import Mathlib

/-!
# Verification of the lead-generation HTTP façade

Shallow embedding of `handlers.js` and the route glue in `index.js`:
the Google-search handler (paginated upstream calls), the spreadsheet
handler (create / bulk update / permission), the Excel export handler,
and the two composite endpoints that chain them.

JavaScript conventions modelled explicitly:
* an absent request/body field is `Option.none` (JS `undefined`);
* JS truthiness of an optional string (`!x`) is `optTruthy`;
* template-literal interpolation of `undefined` prints `"undefined"`;
* `Array.prototype.slice(0, end)` with a possibly negative `end` is
  `jsSlice0`;
* `Math.ceil(maxResults / 10)` is `maxRequestsNeeded` over `Int`
  (JS numbers on the integer inputs the handlers receive);
* each `await axios.get`/Sheets/Drive call is recorded in a call list so
  that theorems can speak about how many upstream requests were issued
  and with which parameters.
-/

set_option autoImplicit false

/-- Plain character-list check: does `pat` occur at the head of `l`? -/
def listStartsWith : List Char → List Char → Bool
  | [], _ => true
  | _ :: _, [] => false
  | a :: as, b :: bs => a == b && listStartsWith as bs

/-- Plain character-list substring occurrence check. -/
def listContainsSub (pat : List Char) : List Char → Bool
  | [] => listStartsWith pat []
  | b :: bs => listStartsWith pat (b :: bs) || listContainsSub pat bs

/-- `strMentions s pat` holds when `pat` occurs verbatim inside `s`;
used to state that an error message "names" a credential or parameter. -/
def strMentions (s pat : String) : Bool :=
  listContainsSub pat.data s.data

/-- JS truthiness of an optional string: `undefined` and `""` are falsy. -/
def optTruthy : Option String → Bool
  | none => false
  | some s => s != ""

/-- JS template-literal interpolation: an `undefined` value prints as the
literal text `undefined`. -/
def jsInterp : Option String → String
  | none => "undefined"
  | some s => s

/-- JS `a || b` on an optional string: falsy (`undefined` or `""`) falls
back to the default. -/
def jsOrStr : Option String → String → String
  | none, d => d
  | some s, d => if s = "" then d else s

/-- One search result as formatted by `googleSearchHandler`
(`{title, link, snippet, source}` with `source` the hostname of `link`). -/
structure ListingResult where
  title : String
  link : String
  snippet : String
  source : String
deriving DecidableEq

/-- One raw item of an upstream search-API response page
(`item.title`, `item.link`, `item.snippet`). -/
structure SearchItem where
  title : String
  link : String
  snippet : String
deriving DecidableEq

/-- The environment variables read by the search handler. -/
structure SearchEnv where
  googleApiKey : Option String
  googleCx : Option String

/-- Body of a request to `/api/search` (all fields optional in JSON). -/
structure SearchReq where
  jobTitle : Option String
  location : Option String
  maxResults : Option Int

/-- The parameters of one `axios.get` call to the custom-search API:
query string `q`, page size `num` (always 10), and 1-based `start`. -/
structure UpstreamCall where
  q : String
  num : Nat
  start : Nat
deriving DecidableEq

/-- Response of the search handler: `res.json({results})` (HTTP 200) or
`res.status(s).json({error: msg})`. -/
inductive SearchResponse where
  | ok (results : List ListingResult)
  | err (status : Nat) (msg : String)
deriving DecidableEq

/-- HTTP status carried by a `SearchResponse` (`res.json` is 200). -/
def SearchResponse.httpStatus : SearchResponse → Nat
  | .ok _ => 200
  | .err s _ => s

/-- Results carried by a `SearchResponse` (empty for an error response). -/
def resultsOf : SearchResponse → List ListingResult
  | .ok rs => rs
  | .err _ _ => []

/-- The credential error message of `googleSearchHandler`. -/
def missingGoogleCredMsg : String :=
  "Missing Google API credentials. Set GOOGLE_API_KEY and GOOGLE_CX environment variables."

/-- The fixed site-filter text that opens the search query, up to and
including the text `"Looking for ` of the quoted phrase. -/
def sitesQueryPre : String :=
  "site:linkedin.com OR site:indeed.com OR site:glassdoor.com OR site:monster.com OR site:ziprecruiter.com \"Looking for "

/-- The clause appended for a truthy `location`: `"${location}"`, else empty. -/
def locationClause : Option String → String
  | none => ""
  | some l => if l = "" then "" else "\"" ++ l ++ "\""

/-- The query template literal of `googleSearchHandler` (line 34 of
`handlers.js`): site filter, quoted `Looking for ${jobTitle}` phrase,
optional quoted location. -/
def buildQuery (jobTitle location : Option String) : String :=
  sitesQueryPre ++ jsInterp jobTitle ++ "\" " ++ locationClause location

/-- `Math.ceil(maxResults / 10)`: with `/` the Euclidean (floor for a
positive divisor) integer division, `(m + 9) / 10` is exactly the ceiling
of `m / 10` for every integer `m`. -/
def maxRequestsNeeded (maxResults : Int) : Int :=
  (maxResults + 9) / 10

/-- Formatting of one raw item: copy `title`, `link`, `snippet`, and set
`source` to `new URL(item.link).hostname`; URL parsing is abstracted as the
`hostname` function parameter since no property depends on its content. -/
def formatItem (hostname : String → String) (it : SearchItem) : ListingResult :=
  { title := it.title, link := it.link, snippet := it.snippet, source := hostname it.link }

/-- JS `l.slice(0, e)`: a nonnegative `e` truncates to the first `e`
elements; a negative `e` counts from the end (`length + e`, clamped at 0). -/
def jsSlice0 {α : Type} (l : List α) (e : Int) : List α :=
  if 0 ≤ e then l.take e.toNat else l.take ((l.length : Int) + e).toNat

/-- The pagination loop of `googleSearchHandler` (lines 29–66).  `fuel` is
the number of remaining iterations (`maxRequestsNeeded` at the start), `i`
the loop counter, `acc` the accumulator `allResults`.  Each iteration
issues one upstream call (recorded in the returned list); a non-empty page
is appended after formatting and the loop breaks once
`allResults.length >= maxResults`; an empty page breaks the loop. -/
def searchGo (pages : Nat → List SearchItem) (hostname : String → String) (q : String)
    (maxResults : Int) :
    Nat → Nat → List ListingResult → List ListingResult × List UpstreamCall
  | 0, _, acc => (acc, [])
  | fuel + 1, i, acc =>
    let call : UpstreamCall := { q := q, num := 10, start := i * 10 + 1 }
    let page := pages i
    if 0 < page.length then
      let acc2 := acc ++ page.map (formatItem hostname)
      if maxResults ≤ (acc2.length : Int) then (acc2, [call])
      else
        let r := searchGo pages hostname q maxResults fuel (i + 1) acc2
        (r.1, call :: r.2)
    else (acc, [call])

/-- `googleSearchHandler` of `handlers.js`: credential check, then the
pagination loop, then `slice(0, maxResults)`.  `pages i` is the item list
of the upstream response to the `i`-th call (empty models both a missing
`items` field and an empty page).  Returns the response together with the
list of upstream calls issued. -/
def googleSearchHandler (env : SearchEnv) (hostname : String → String)
    (pages : Nat → List SearchItem) (req : SearchReq) :
    SearchResponse × List UpstreamCall :=
  if !optTruthy env.googleApiKey || !optTruthy env.googleCx then
    (.err 500 missingGoogleCredMsg, [])
  else
    let maxResults := req.maxResults.getD 50
    let q := buildQuery req.jobTitle req.location
    let r := searchGo pages hostname q maxResults (maxRequestsNeeded maxResults).toNat 0 []
    (.ok (jsSlice0 r.1 maxResults), r.2)

/-- A parsed JSON value, as far as the spreadsheet handler observes it:
only JS truthiness of the parse result is inspected (`if (!credentials)`),
plus the two fields handed to the JWT constructor. -/
inductive JsonValue where
  | jnull
  | jbool (b : Bool)
  | jnum (n : Int)
  | jstr (s : String)
  | jobj (clientEmail privateKey : Option String)
deriving DecidableEq

/-- JS truthiness of a parsed JSON value. -/
def JsonValue.truthy : JsonValue → Bool
  | .jnull => false
  | .jbool b => b
  | .jnum n => n != 0
  | .jstr s => s != ""
  | .jobj _ _ => true

/-- Success payload of the spreadsheet handler's `res.json`. -/
structure SheetsOk where
  spreadsheetId : String
  spreadsheetUrl : String
  totalResults : Nat
deriving DecidableEq

/-- Response of the spreadsheet handler. -/
inductive SheetsResponse where
  | ok (r : SheetsOk)
  | err (status : Nat) (msg : String)
deriving DecidableEq

/-- The Sheets/Drive API calls issued by the spreadsheet handler, with the
request parameters each carries in `handlers.js` (lines 108–158). -/
inductive SheetsCall where
  | create (title : Option String) (sheetTitle : String) (rowCount : Nat) (columnCount : Nat)
  | update (spreadsheetId : String) (range : String) (valueInputOption : String)
      (values : List (List String))
  | permission (fileId : String) (role : String) (grantType : String)
deriving DecidableEq

/-- One data row written to the sheet (lines 132–137). -/
def sheetRow (it : ListingResult) : List String :=
  [it.title, it.link, it.snippet, it.source]

/-- The header row written to the sheet (line 131). -/
def sheetHeaders : List String := ["Title", "Link", "Description", "Source"]

/-- The (dead-for-missing-env) credential message of the spreadsheet
handler (line 92). -/
def missingSheetsCredMsg : String :=
  "Missing Google Sheets credentials. Set GOOGLE_SHEETS_CREDENTIALS environment variable."

/-- `createSpreadsheetHandler` of `handlers.js`.  `parsedCreds` is the
outcome of `JSON.parse(process.env.GOOGLE_SHEETS_CREDENTIALS)` — `.error`
when the parse throws (in particular when the variable is absent, since
`JSON.parse(undefined)` throws a `SyntaxError`), `.ok v` when it returns
value `v`.  `createOutcome`/`updateOutcome`/`permOutcome` are the outcomes
of the three awaited API calls (`.error` models a rejection caught by the
surrounding `try`).  Every thrown error reaches the single `catch`, which
responds `500` with `error.message`.  Returns the response and the
API calls issued before the response. -/
def createSpreadsheetHandler (parsedCreds : Except String JsonValue)
    (createOutcome : Except String String) (updateOutcome : Except String Unit)
    (permOutcome : Except String Unit) (title : Option String)
    (data : List ListingResult) : SheetsResponse × List SheetsCall :=
  match parsedCreds with
  | .error m => (.err 500 m, [])
  | .ok credentials =>
    if !credentials.truthy then (.err 500 missingSheetsCredMsg, [])
    else
      let createCall := SheetsCall.create title "Job Listings" (data.length + 1) 4
      match createOutcome with
      | .error m => (.err 500 m, [createCall])
      | .ok spreadsheetId =>
        let values := sheetHeaders :: data.map sheetRow
        let updateCall := SheetsCall.update spreadsheetId "Job Listings!A1" "RAW" values
        match updateOutcome with
        | .error m => (.err 500 m, [createCall, updateCall])
        | .ok _ =>
          let permCall := SheetsCall.permission spreadsheetId "writer" "anyone"
          match permOutcome with
          | .error m => (.err 500 m, [createCall, updateCall, permCall])
          | .ok _ =>
            (.ok { spreadsheetId := spreadsheetId,
                   spreadsheetUrl :=
                     "https://docs.google.com/spreadsheets/d/" ++ spreadsheetId
                       ++ "/edit?usp=sharing",
                   totalResults := data.length },
             [createCall, updateCall, permCall])

/-- One element of the `data` array sent to the Excel export handler;
every field may be absent (`item.title || ''` etc. fills in `""`). -/
structure ExcelItem where
  title : Option String
  link : Option String
  snippet : Option String
  source : Option String
deriving DecidableEq

/-- The `data` input of the Excel export handler as the guard
`!data || !Array.isArray(data) || data.length === 0` distinguishes it:
absent/falsy, a truthy non-array value, or an array. -/
inductive ExcelData where
  | missing
  | nonArray
  | array (items : List ExcelItem)
deriving DecidableEq

/-- Response of the Excel export handler: a 400 error, or the 200
attachment response (`filename` goes into `Content-Disposition`; the
workbook is modelled at the level of its single worksheet's cell rows,
the `worksheetData` array of `handlers.js` lines 192–200). -/
inductive ExcelResponse where
  | err (status : Nat) (msg : String)
  | file (filename : String) (worksheet : List (List String))
deriving DecidableEq

/-- The header row of the Excel worksheet (line 189). -/
def excelHeaders : List String := ["Title", "Link", "Description", "Source"]

/-- One worksheet data row (lines 194–199), with `|| ''` defaults. -/
def excelRow (it : ExcelItem) : List String :=
  [it.title.getD "", it.link.getD "", it.snippet.getD "", it.source.getD ""]

/-- The validation message of the Excel export handler (line 181). -/
def invalidDataMsg : String :=
  "Invalid data format. Please provide an array of job listings."

/-- `exportToExcelHandler` of `handlers.js`: reject missing / non-array /
empty `data` with 400, otherwise build the worksheet (header row followed
by one row per item) deterministically in memory and send it as an
attachment under `filename` (default `job_listings.xlsx`). -/
def exportToExcelHandler (dat : ExcelData) (filename : Option String) : ExcelResponse :=
  match dat with
  | .missing => .err 400 invalidDataMsg
  | .nonArray => .err 400 invalidDataMsg
  | .array [] => .err 400 invalidDataMsg
  | .array (x :: xs) =>
    .file (filename.getD "job_listings.xlsx") (excelHeaders :: (x :: xs).map excelRow)

/-- Body of a request to a composite endpoint
(`/api/search-to-spreadsheet` uses `spreadsheetTitle`,
`/api/search-to-excel` uses `filename`). -/
structure CompositeReq where
  jobTitle : Option String
  location : Option String
  maxResults : Option Int
  spreadsheetTitle : Option String
  filename : Option String

/-- The 400 message of both composite endpoints. -/
def missingJobTitleMsg : String := "Missing required parameter: jobTitle is required"

/-- Replace every maximal run of whitespace with one underscore, as JS
String.replace does with a global whitespace-run pattern; the Boolean
argument records whether the previous character was inside such a run. -/
def collapseWsAux : Bool → List Char → List Char
  | _, [] => []
  | inRun, c :: cs =>
    if c.isWhitespace then
      if inRun then collapseWsAux true cs else '_' :: collapseWsAux true cs
    else c :: collapseWsAux false cs

/-- JS whitespace-run-to-underscore replace used for default filenames. -/
def jsReplaceWs (s : String) : String := String.mk (collapseWsAux false s.data)

/-- Default spreadsheet title built at `index.js` line 544 from the job
title, optional location, and the current locale date string. -/
def defaultSpreadsheetTitle (jobTitle location : Option String) (today : String) : String :=
  jsInterp jobTitle ++ " Jobs" ++
    (match location with
     | none => ""
     | some l => if l = "" then "" else " in " ++ l) ++ " - " ++ today

/-- Default Excel filename built at `index.js` line 594. -/
def defaultExcelFilename (jobTitle location : Option String) : String :=
  jsReplaceWs (jsInterp jobTitle) ++
    (match location with
     | none => ""
     | some l => if l = "" then "" else "_" ++ jsReplaceWs l) ++ "_jobs.xlsx"

/-- Response of `/api/search-to-spreadsheet`: the combined summary or a
forwarded error. -/
inductive StoSResponse where
  | ok (message jobTitle location : String) (totalResults : Nat)
      (spreadsheetId spreadsheetUrl : String)
  | err (status : Nat) (msg : String)
deriving DecidableEq

/-- A search result flows into the Excel handler with every field set. -/
def toExcelItem (r : ListingResult) : ExcelItem :=
  { title := some r.title, link := some r.link, snippet := some r.snippet,
    source := some r.source }

/-- `POST /api/search-to-spreadsheet` (`index.js` lines 525–580): reject a
falsy `jobTitle` with 400; otherwise run the search handler, forward a
search error, else run the spreadsheet handler on the results (with the
given or default title), forward its error, else respond with the
combined summary.  Returns the response together with the upstream search
calls and the Sheets/Drive calls issued. -/
def searchToSpreadsheet (env : SearchEnv) (hostname : String → String)
    (pages : Nat → List SearchItem) (parsedCreds : Except String JsonValue)
    (createOutcome : Except String String) (updateOutcome permOutcome : Except String Unit)
    (today : String) (req : CompositeReq) :
    StoSResponse × List UpstreamCall × List SheetsCall :=
  if !optTruthy req.jobTitle then (.err 400 missingJobTitleMsg, [], [])
  else
    let sr := googleSearchHandler env hostname pages
      { jobTitle := req.jobTitle, location := req.location, maxResults := req.maxResults }
    match sr.1 with
    | .err s m => (.err s m, sr.2, [])
    | .ok results =>
      let title := jsOrStr req.spreadsheetTitle
        (defaultSpreadsheetTitle req.jobTitle req.location today)
      let cr := createSpreadsheetHandler parsedCreds createOutcome updateOutcome permOutcome
        (some title) results
      match cr.1 with
      | .err s m => (.err s m, sr.2, cr.2)
      | .ok r =>
        (.ok "Search and spreadsheet creation successful" (jsInterp req.jobTitle)
          (jsOrStr req.location "Any location") results.length
          r.spreadsheetId r.spreadsheetUrl, sr.2, cr.2)

/-- `POST /api/search-to-excel` (`index.js` lines 583–625): reject a falsy
`jobTitle` with 400; otherwise run the search handler, forward a search
error, else feed the results straight into the Excel export handler under
the given or default filename.  Returns the response together with the
upstream search calls issued. -/
def searchToExcel (env : SearchEnv) (hostname : String → String)
    (pages : Nat → List SearchItem) (req : CompositeReq) :
    ExcelResponse × List UpstreamCall :=
  if !optTruthy req.jobTitle then (.err 400 missingJobTitleMsg, [])
  else
    let excelFilename := jsOrStr req.filename (defaultExcelFilename req.jobTitle req.location)
    let sr := googleSearchHandler env hostname pages
      { jobTitle := req.jobTitle, location := req.location, maxResults := req.maxResults }
    match sr.1 with
    | .err s m => (.err s m, sr.2)
    | .ok results =>
      (exportToExcelHandler (ExcelData.array (results.map toExcelItem)) (some excelFilename),
       sr.2)

/-- A concrete raw search item for concrete evaluations. -/
def demoItem : SearchItem := { title := "t", link := "http://x.com/1", snippet := "sn" }

/-- A concrete environment with both search credentials present. -/
def envOk : SearchEnv := { googleApiKey := some "k", googleCx := some "c" }

/-- A concrete hostname extractor for concrete evaluations. -/
def hostFixed : String → String := fun _ => "x.com"

/-- Upstream that always returns an empty page. -/
def pagesEmpty : Nat → List SearchItem := fun _ => []

/-- Upstream whose first page has three items (fewer than the page size
of 10) and whose later pages are empty. -/
def pagesShort : Nat → List SearchItem :=
  fun i => if i = 0 then [demoItem, demoItem, demoItem] else []

/-- The message of the platform JSON parser on `JSON.parse(undefined)`
(the coerced text `undefined` is not valid JSON); modelled from the
V8 SyntaxError raised when `GOOGLE_SHEETS_CREDENTIALS` is unset. -/
def jsonParseUndefMsg : String := "Unexpected token u in JSON at position 0"

/-- The concrete export item of the worksheet-layout property. -/
def c7item : ExcelItem :=
  { title := some "A", link := some "http://x.com/1", snippet := some "s",
    source := some "x.com" }

/-- A concrete search request asking for 15 results. -/
def reqShort15 : SearchReq := { jobTitle := some "dev", location := none, maxResults := some 15 }

/-- A concrete search request asking for -1 results. -/
def reqNeg : SearchReq := { jobTitle := some "dev", location := none, maxResults := some (-1) }

/-! ## Helper lemmas about the pagination loop -/

theorem searchGo_zero (p : Nat → List SearchItem) (h : String → String) (q : String)
    (m : Int) (i : Nat) (acc : List ListingResult) :
    searchGo p h q m 0 i acc = (acc, []) := rfl

theorem searchGo_one_call (p : Nat → List SearchItem) (h : String → String) (q : String)
    (m : Int) (i : Nat) (acc : List ListingResult) :
    (searchGo p h q m 1 i acc).2.length = 1 := by
  simp only [searchGo]
  split
  · split <;> simp [searchGo]
  · simp

theorem searchGo_calls_ne (p : Nat → List SearchItem) (h : String → String) (q : String)
    (m : Int) (fuel i : Nat) (acc : List ListingResult) :
    (searchGo p h q m (fuel + 1) i acc).2 ≠ [] := by
  simp only [searchGo]
  split
  · split <;> simp
  · simp

theorem searchGo_calls_q (p : Nat → List SearchItem) (h : String → String) (q : String)
    (m : Int) :
    ∀ (fuel i : Nat) (acc : List ListingResult) (c : UpstreamCall),
      c ∈ (searchGo p h q m fuel i acc).2 → c.q = q := by
  intro fuel
  induction fuel with
  | zero =>
    intro i acc c hc
    simp [searchGo] at hc
  | succ n ih =>
    intro i acc c hc
    simp only [searchGo] at hc
    split at hc
    · split at hc
      · simp only [List.mem_singleton] at hc
        subst hc; rfl
      · simp only [List.mem_cons] at hc
        rcases hc with hc | hc
        · subst hc; rfl
        · exact ih (i + 1) _ c hc
    · simp only [List.mem_singleton] at hc
      subst hc; rfl

theorem jsSlice0_nil {α : Type} (e : Int) : jsSlice0 ([] : List α) e = [] := by
  simp [jsSlice0]

/-! ## Claim theorems -/

/-- C4: for every search request made while `GOOGLE_API_KEY` or
`GOOGLE_CX` is absent, the handler responds HTTP 500 with a message
naming the missing credential (the fixed message names both), and no
upstream call is made before that response (the call list is empty). -/
theorem searchHandler_missing_creds_500_no_call (env : SearchEnv) (h : String → String)
    (pages : Nat → List SearchItem) (req : SearchReq)
    (habs : env.googleApiKey = none ∨ env.googleCx = none) :
    googleSearchHandler env h pages req = (.err 500 missingGoogleCredMsg, []) ∧
    strMentions missingGoogleCredMsg "GOOGLE_API_KEY" = true ∧
    strMentions missingGoogleCredMsg "GOOGLE_CX" = true := by
  refine ⟨?_, by decide, by decide⟩
  rcases habs with h1 | h1 <;> simp [googleSearchHandler, h1, optTruthy]

theorem searchHandler_missing_creds_witness :
    googleSearchHandler { googleApiKey := none, googleCx := some "c" } hostFixed pagesEmpty
        { jobTitle := some "dev", location := none, maxResults := none } =
      (.err 500 missingGoogleCredMsg, []) ∧
    strMentions missingGoogleCredMsg "GOOGLE_API_KEY" = true ∧
    strMentions missingGoogleCredMsg "GOOGLE_CX" = true :=
  searchHandler_missing_creds_500_no_call _ hostFixed pagesEmpty _ (Or.inl rfl)

/-- C5: a request to either composite endpoint whose body omits
`jobTitle` gets HTTP 400 with the message naming `jobTitle` as required,
and neither a search call nor an export step is executed (all issued-call
lists are empty and no workbook response is produced). -/
theorem composite_missing_jobTitle_400 (env : SearchEnv) (h : String → String)
    (pages : Nat → List SearchItem) (parsedCreds : Except String JsonValue)
    (cO : Except String String) (uO pO : Except String Unit) (today : String)
    (req : CompositeReq) (hjt : req.jobTitle = none) :
    searchToSpreadsheet env h pages parsedCreds cO uO pO today req =
      (.err 400 missingJobTitleMsg, [], []) ∧
    searchToExcel env h pages req = (.err 400 missingJobTitleMsg, []) ∧
    strMentions missingJobTitleMsg "jobTitle" = true := by
  refine ⟨?_, ?_, by decide⟩ <;>
    simp [searchToSpreadsheet, searchToExcel, hjt, optTruthy]

theorem composite_missing_jobTitle_witness :
    searchToSpreadsheet envOk hostFixed pagesEmpty (.ok (.jobj none none)) (.ok "id")
        (.ok ()) (.ok ()) "1/1/2026"
        { jobTitle := none, location := none, maxResults := none,
          spreadsheetTitle := none, filename := none } =
      (.err 400 missingJobTitleMsg, [], []) ∧
    searchToExcel envOk hostFixed pagesEmpty
        { jobTitle := none, location := none, maxResults := none,
          spreadsheetTitle := none, filename := none } =
      (.err 400 missingJobTitleMsg, []) ∧
    strMentions missingJobTitleMsg "jobTitle" = true :=
  composite_missing_jobTitle_400 envOk hostFixed pagesEmpty _ _ _ _ _ _ rfl

/-- C6: the file-export handler rejects a missing, non-array, or empty
`data` input with HTTP 400 (producing no workbook — the error response
carries none), and on any non-empty array the construction is total and
deterministic: it returns the attachment built from the header row and
one row per item, with no other failure mode. -/
theorem excelExport_validation :
    ∀ fn : Option String,
      exportToExcelHandler .missing fn = .err 400 invalidDataMsg ∧
      exportToExcelHandler .nonArray fn = .err 400 invalidDataMsg ∧
      exportToExcelHandler (.array []) fn = .err 400 invalidDataMsg ∧
      ∀ (x : ExcelItem) (xs : List ExcelItem),
        exportToExcelHandler (.array (x :: xs)) fn =
          .file (fn.getD "job_listings.xlsx") (excelHeaders :: (x :: xs).map excelRow) :=
  fun _ => ⟨rfl, rfl, rfl, fun _ _ => rfl⟩

/-- C7: on the input list `[{title:"A", link:"http://x.com/1",
snippet:"s", source:"x.com"}]` the worksheet is the literal header row
followed by `["A","http://x.com/1","s","x.com"]`; in general it is the
header row followed by one row per input item in order. -/
theorem excelExport_worksheet_rows :
    exportToExcelHandler (.array [c7item]) none =
      .file "job_listings.xlsx"
        [["Title", "Link", "Description", "Source"],
         ["A", "http://x.com/1", "s", "x.com"]] ∧
    ∀ (x : ExcelItem) (xs : List ExcelItem) (fn : Option String),
      exportToExcelHandler (.array (x :: xs)) fn =
        .file (fn.getD "job_listings.xlsx") (excelHeaders :: (x :: xs).map excelRow) :=
  ⟨rfl, fun _ _ _ => rfl⟩

/-- C10: with credentials present and a requested `maxResults ≤ 0`, the
ceiling loop bound makes zero upstream calls and the handler responds
HTTP 200 with an empty results list. -/
theorem searchHandler_nonpositive_max_ok_empty (env : SearchEnv) (h : String → String)
    (pages : Nat → List SearchItem) (req : SearchReq) (m : Int)
    (hk : optTruthy env.googleApiKey = true) (hc : optTruthy env.googleCx = true)
    (hm : req.maxResults = some m) (h0 : m ≤ 0) :
    googleSearchHandler env h pages req = (.ok [], []) ∧
    (googleSearchHandler env h pages req).1.httpStatus = 200 := by
  have hfuel : (maxRequestsNeeded m).toNat = 0 := by
    unfold maxRequestsNeeded; omega
  have hmain : googleSearchHandler env h pages req = (.ok [], []) := by
    simp [googleSearchHandler, hk, hc, hm, hfuel, searchGo_zero, jsSlice0_nil]
  exact ⟨hmain, by rw [hmain]; rfl⟩

theorem searchHandler_nonpositive_max_witness :
    googleSearchHandler envOk hostFixed pagesShort
        { jobTitle := some "dev", location := none, maxResults := some 0 } =
      (.ok [], []) ∧
    (googleSearchHandler envOk hostFixed pagesShort
        { jobTitle := some "dev", location := none, maxResults := some 0 }).1.httpStatus =
      200 :=
  searchHandler_nonpositive_max_ok_empty envOk hostFixed pagesShort _ 0 (by decide)
    (by decide) rfl (by decide)

/-- Call count of the loop with fuel 2 starting from an empty
accumulator: the second call happens exactly when the first page is
non-empty and did not reach the requested count. -/
theorem searchGo_two_calls (p : Nat → List SearchItem) (h : String → String) (q : String)
    (m : Int) :
    (searchGo p h q m 2 0 []).2.length =
      if p 0 = [] ∨ m ≤ ((p 0).length : Int) then 1 else 2 := by
  simp only [searchGo, List.nil_append, List.length_map]
  by_cases hp : p 0 = []
  · simp [hp]
  · have hp' : 0 < (p 0).length := List.length_pos.mpr hp
    rw [if_pos hp']
    by_cases hm : m ≤ ((p 0).length : Int)
    · simp [hm, hp]
    · simp only [hm, hp, if_false]
      simp [hm, hp]
      split <;> rfl

/-- C1 (amended): with credentials present, for `1 ≤ maxResults ≤ 10`
exactly one upstream call is made; for `maxResults` in `(10, 20]` at most
two are made, and the second call is skipped exactly when the first page
is empty or already reached the requested count — a non-empty page with
fewer than 10 items does not stop the loop. -/
theorem searchHandler_call_counts (env : SearchEnv) (h : String → String)
    (pages : Nat → List SearchItem) (req : SearchReq) (m : Int)
    (hk : optTruthy env.googleApiKey = true) (hc : optTruthy env.googleCx = true)
    (hm : req.maxResults = some m) :
    (1 ≤ m → m ≤ 10 → (googleSearchHandler env h pages req).2.length = 1) ∧
    (10 < m → m ≤ 20 →
      (googleSearchHandler env h pages req).2.length ≤ 2 ∧
      (googleSearchHandler env h pages req).2.length =
        if pages 0 = [] ∨ m ≤ ((pages 0).length : Int) then 1 else 2) := by
  have hcond : (!optTruthy env.googleApiKey || !optTruthy env.googleCx) = false := by
    rw [hk, hc]; rfl
  have hcalls : (googleSearchHandler env h pages req).2 =
      (searchGo pages h (buildQuery req.jobTitle req.location) m
        (maxRequestsNeeded m).toNat 0 []).2 := by
    simp [googleSearchHandler, hcond, hm]
  constructor
  · intro h1 h10
    have hfuel : (maxRequestsNeeded m).toNat = 1 := by
      unfold maxRequestsNeeded; omega
    rw [hcalls, hfuel]
    exact searchGo_one_call pages h _ m 0 []
  · intro h10 h20
    have hfuel : (maxRequestsNeeded m).toNat = 2 := by
      unfold maxRequestsNeeded; omega
    rw [hcalls, hfuel]
    refine ⟨?_, searchGo_two_calls pages h _ m⟩
    rw [searchGo_two_calls]
    split <;> omega

theorem searchHandler_call_counts_witness :
    (googleSearchHandler envOk hostFixed pagesShort reqShort15).2.length ≤ 2 ∧
    (googleSearchHandler envOk hostFixed pagesShort reqShort15).2.length =
      if pagesShort 0 = [] ∨ (15 : Int) ≤ ((pagesShort 0).length : Int) then 1 else 2 :=
  (searchHandler_call_counts envOk hostFixed pagesShort reqShort15 15 (by decide) (by decide)
    rfl).2 (by decide) (by decide)

/-- C1 counterexample: with `maxResults = 15` and a first page of only 3
items (fewer than 10, and non-empty), the loop does not stop early: a
second upstream call is made, refuting "the loop stops early if a page
returns fewer than 10 items". -/
theorem searchLoop_short_page_two_calls_cex :
    (pagesShort 0).length < 10 ∧ pagesShort 0 ≠ [] ∧
    (googleSearchHandler envOk hostFixed pagesShort reqShort15).2.length = 2 := by
  decide

/-- C2 (amended): for every upstream page sequence and request, the
returned result list has length at most `max(maxResults, 0)` (with the
default of 50 applied); for a negative `maxResults` the loop body never
runs and the returned list is empty, so its length of 0 exceeds the
(negative) requested value. -/
theorem searchResults_le_requested_max (env : SearchEnv) (h : String → String)
    (pages : Nat → List SearchItem) (req : SearchReq) (rs : List ListingResult)
    (hok : (googleSearchHandler env h pages req).1 = .ok rs) :
    rs.length ≤ (req.maxResults.getD 50).toNat := by
  cases hbool : (!optTruthy env.googleApiKey || !optTruthy env.googleCx) with
  | true =>
    simp [googleSearchHandler, hbool] at hok
  | false =>
    have hok' : rs = jsSlice0
        (searchGo pages h (buildQuery req.jobTitle req.location) (req.maxResults.getD 50)
          (maxRequestsNeeded (req.maxResults.getD 50)).toNat 0 []).1
        (req.maxResults.getD 50) := by
      simp [googleSearchHandler, hbool] at hok
      exact hok.symm
    by_cases hm : 0 ≤ req.maxResults.getD 50
    · rw [hok']
      simp only [jsSlice0, if_pos hm]
      exact List.length_take_le _ _
    · have hfuel : (maxRequestsNeeded (req.maxResults.getD 50)).toNat = 0 := by
        unfold maxRequestsNeeded; omega
      rw [hok', hfuel, searchGo_zero, jsSlice0_nil]
      exact Nat.zero_le _

theorem searchResults_le_requested_max_witness :
    ([] : List ListingResult).length ≤
      (({ jobTitle := some "dev", location := none,
          maxResults := none } : SearchReq).maxResults.getD 50).toNat :=
  searchResults_le_requested_max envOk hostFixed pagesEmpty _ [] (by decide)

/-- C2 counterexample: with `maxResults = -1` the handler returns an
(empty) result list whose length 0 is not at most the requested -1, so
"length at most maxResults for every requested maxResults" fails. -/
theorem searchResults_negative_max_cex :
    (googleSearchHandler envOk hostFixed pagesEmpty reqNeg).1 =
      SearchResponse.ok (resultsOf (googleSearchHandler envOk hostFixed pagesEmpty reqNeg).1) ∧
    ¬ (((resultsOf (googleSearchHandler envOk hostFixed pagesEmpty reqNeg).1).length : Int) ≤
        reqNeg.maxResults.getD 50) := by
  decide

/-- The query built for an absent `jobTitle` interpolates the literal
text `undefined`: it decomposes around `Looking for undefined`. -/
theorem buildQuery_undefined (loc : Option String) :
    ∃ p s, buildQuery none loc = p ++ "Looking for undefined" ++ s := by
  refine ⟨"site:linkedin.com OR site:indeed.com OR site:glassdoor.com OR site:monster.com OR site:ziprecruiter.com \"",
    "\" " ++ locationClause loc, ?_⟩
  show (sitesQueryPre ++ jsInterp none) ++ "\" " ++ locationClause loc = _
  conv_rhs => rw [← String.append_assoc]
  congr 2

/-- C9: a request to `/api/search` (or `/google_search`) that omits
`jobTitle` is not rejected by validation: with credentials present the
handler responds with a results payload, every upstream call it issues
carries a query containing the literal text `Looking for undefined`, and
with the default `maxResults` (field omitted) at least one upstream call
is made — unlike the composite endpoints, which reject with 400. -/
theorem searchHandler_undefined_jobTitle (env : SearchEnv) (h : String → String)
    (pages : Nat → List SearchItem) (req : SearchReq)
    (hk : optTruthy env.googleApiKey = true) (hc : optTruthy env.googleCx = true)
    (hjt : req.jobTitle = none) :
    (∃ rs, (googleSearchHandler env h pages req).1 = .ok rs) ∧
    (∀ c ∈ (googleSearchHandler env h pages req).2,
      ∃ p s, c.q = p ++ "Looking for undefined" ++ s) ∧
    (req.maxResults = none → (googleSearchHandler env h pages req).2 ≠ []) := by
  have hcond : (!optTruthy env.googleApiKey || !optTruthy env.googleCx) = false := by
    rw [hk, hc]; rfl
  have hred : googleSearchHandler env h pages req =
      (.ok (jsSlice0
          (searchGo pages h (buildQuery req.jobTitle req.location) (req.maxResults.getD 50)
            (maxRequestsNeeded (req.maxResults.getD 50)).toNat 0 []).1
          (req.maxResults.getD 50)),
       (searchGo pages h (buildQuery req.jobTitle req.location) (req.maxResults.getD 50)
          (maxRequestsNeeded (req.maxResults.getD 50)).toNat 0 []).2) := by
    simp [googleSearchHandler, hcond]
  refine ⟨⟨_, by rw [hred]⟩, ?_, ?_⟩
  · intro c hcmem
    rw [hred] at hcmem
    have hq : c.q = buildQuery req.jobTitle req.location :=
      searchGo_calls_q pages h _ _ _ _ _ c hcmem
    rw [hq, hjt]
    exact buildQuery_undefined req.location
  · intro hmr
    rw [hred]
    simp only [hmr]
    have hfuel : (maxRequestsNeeded ((none : Option Int).getD 50)).toNat = 5 := by decide
    rw [hfuel]
    exact searchGo_calls_ne pages h _ _ 4 0 []

theorem searchHandler_undefined_jobTitle_witness :
    (∃ rs, (googleSearchHandler envOk hostFixed pagesEmpty
        { jobTitle := none, location := none, maxResults := none }).1 = .ok rs) ∧
    (∀ c ∈ (googleSearchHandler envOk hostFixed pagesEmpty
        { jobTitle := none, location := none, maxResults := none }).2,
      ∃ p s, c.q = p ++ "Looking for undefined" ++ s) ∧
    (({ jobTitle := none, location := none,
        maxResults := none } : SearchReq).maxResults = none →
      (googleSearchHandler envOk hostFixed pagesEmpty
        { jobTitle := none, location := none, maxResults := none }).2 ≠ []) :=
  searchHandler_undefined_jobTitle envOk hostFixed pagesEmpty _ (by decide) (by decide) rfl

/-- C3 (behavior at the failing input): with `GOOGLE_SHEETS_CREDENTIALS`
unset, `JSON.parse` throws before the handler's own missing-credential
check ever runs, so the 500 response carries the JSON parser's message,
which does not name the credential — while the unreachable check's own
message (line 92 of `handlers.js`) does name it, showing the intended
behavior the claim describes. -/
theorem sheetsCreds_missing_parse_error :
    (createSpreadsheetHandler (.error jsonParseUndefMsg) (.ok "id") (.ok ()) (.ok ())
        (some "T") []) = (SheetsResponse.err 500 jsonParseUndefMsg, []) ∧
    strMentions jsonParseUndefMsg "GOOGLE_SHEETS_CREDENTIALS" = false ∧
    strMentions missingSheetsCredMsg "GOOGLE_SHEETS_CREDENTIALS" = true := by
  decide

/-- C8: on the success path (credentials parse to a truthy value, all
three API calls succeed), the spreadsheet handler issues exactly the
create call sized to the data (`data.length + 1` rows, 4 columns), one
bulk update writing the header row followed by one row per result in
order, and the anyone-with-link writer permission; the response carries
the document id, the shareable URL built from it, and the result count. -/
theorem createSpreadsheet_success (tl : Option String) (dat : List ListingResult)
    (v : JsonValue) (sid : String) (hv : v.truthy = true) :
    createSpreadsheetHandler (.ok v) (.ok sid) (.ok ()) (.ok ()) tl dat =
      (.ok { spreadsheetId := sid,
             spreadsheetUrl :=
               "https://docs.google.com/spreadsheets/d/" ++ sid ++ "/edit?usp=sharing",
             totalResults := dat.length },
       [SheetsCall.create tl "Job Listings" (dat.length + 1) 4,
        SheetsCall.update sid "Job Listings!A1" "RAW" (sheetHeaders :: dat.map sheetRow),
        SheetsCall.permission sid "writer" "anyone"]) := by
  simp [createSpreadsheetHandler, hv]

theorem createSpreadsheet_success_witness :
    createSpreadsheetHandler (.ok (.jobj none none)) (.ok "id1") (.ok ()) (.ok ())
        (some "T") [{ title := "A", link := "L", snippet := "S", source := "H" }] =
      (.ok { spreadsheetId := "id1",
             spreadsheetUrl :=
               "https://docs.google.com/spreadsheets/d/" ++ "id1" ++ "/edit?usp=sharing",
             totalResults :=
               [({ title := "A", link := "L", snippet := "S",
                   source := "H" } : ListingResult)].length },
       [SheetsCall.create (some "T") "Job Listings"
          ([({ title := "A", link := "L", snippet := "S",
               source := "H" } : ListingResult)].length + 1) 4,
        SheetsCall.update "id1" "Job Listings!A1" "RAW"
          (sheetHeaders ::
            [({ title := "A", link := "L", snippet := "S",
                source := "H" } : ListingResult)].map sheetRow),
        SheetsCall.permission "id1" "writer" "anyone"]) :=
  createSpreadsheet_success (some "T") _ (.jobj none none) "id1" rfl
